import Mathlib

/-!
Verification of the ng2-grid data-grid component (src/grid.ts).

The grid component owns: a column list, a data provider, the currently
displayed page data, the current page index and the visible page-button
window.  The definitions below are a shallow embedding of the methods of
the `Grid` class; JavaScript numbers that the code only ever uses as
integers are modelled as `Int` (page indices, button counts) or `Nat`
(counts, sizes).  `Math.floor(w/2)` and `Math.ceil(w/2)` on integers are
`w / 2` and `(w + 1) / 2` with Lean's Euclidean `Int` division, which
agrees with floor division for the positive divisor 2.
-/

/-- A JSON-like record value: either a scalar (primitive) or a nested
object given as an ordered list of key/value fields.  Lodash `_.isObject`
is true exactly on the `obj` constructor. -/
inductive Value where
  | scalar (s : String)
  | obj (fields : List (String × Value))

/-- A grid data row: the record fields plus the mutable `selected` flag
(`none` models the JavaScript property being absent/undefined). -/
structure Row where
  fields : List (String × Value)
  selected : Option Bool := none

/-- JavaScript truthiness of the `selected` flag: absent and `false` are
falsy, `true` is truthy. -/
def truthy (o : Option Bool) : Bool :=
  o.getD false

/-- Grid column as constructed by grid.ts (`name`, `heading`); the
`sorting` flag is modelled from the spec (ColumnSpec `sortable`) since
grid-column.ts is not in src. -/
structure GridColumn where
  name : String
  heading : String
  sorting : Bool := true
deriving DecidableEq

/-- The data provider's page size: a number, or `false` (paging disabled). -/
inductive PageSize where
  | disabled
  | size (n : Nat)
deriving DecidableEq

/-- Embedding of `Grid.getTotalPages` over the provider's total count and
page size: `1` when `pageSize === false`, otherwise
`Math.ceil(totalCount / pageSize)`, which for `pageSize > 0` equals
`(totalCount + pageSize - 1) / pageSize` in natural division. -/
def computeTotalPages (totalCount : Nat) : PageSize → Nat
  | PageSize.disabled => 1
  | PageSize.size n => (totalCount + n - 1) / n

/-- The list of consecutive integers from `s` to `e` inclusive (empty when
`e < s`); this is the loop `for (i = startIndex; i <= endIndex; i++)`. -/
def intRange (s e : Int) : List Int :=
  (List.range (e + 1 - s).toNat).map (fun (i : Nat) => s + (i : Int))

/-- Embedding of `Grid.paginate` as a function of the option
`pageButtonCount`, `getTotalPages()` and the current page index.  Mirrors
the source: clamp the button count to the total pages, centre the window
on the current index, then shift it right of 1 or left of `totalPages`. -/
def paginate (pageButtonCount totalPages pageIndex : Int) : List Int :=
  let w : Int := min pageButtonCount totalPages
  let offsetLeft : Int := w / 2
  let offsetRight : Int := (w + 1) / 2 - 1
  let startIndex : Int := pageIndex - offsetLeft
  let endIndex : Int := pageIndex + offsetRight
  if startIndex < 1 then
    intRange 1 w
  else if endIndex > totalPages then
    intRange (totalPages - w + 1) totalPages
  else
    intRange startIndex endIndex

/-- Modelled from the spec: grid-sort.ts is not in src; GridSort exposes
the two sort-type constants, with values as documented in grid.ts
(`values are 'asc' or 'desc'`). -/
def GridSort.TYPE_ASC : String := "asc"

/-- Modelled from the spec: the descending sort-type constant. -/
def GridSort.TYPE_DESC : String := "desc"

/-- Modelled from the spec: grid-data-provider.ts is not in src.  The
provider owns the page size, current page, sort state, filter set, the
last-fetched records (returned unmodified by its `getData()`) and the
last-known total count (returned by `getTotalCount()`). -/
structure GridDataProvider where
  pageSize : PageSize
  page : Int
  sortColumn : Option String
  sortType : String
  filters : List (String × String)
  records : List Row
  totalCount : Nat

/-- Modelled from the spec: `setFilter(columnName, keyword)` stores or
overwrites the keyword for that column in the filter set. -/
def GridDataProvider.setFilter (dp : GridDataProvider)
    (columnName value : String) : GridDataProvider :=
  { dp with
    filters := (columnName, value) ::
      dp.filters.filter (fun kv => kv.1 != columnName) }

/-- Modelled from the spec: `setSort(column, direction?)` sets the sort
column; an omitted direction is preserved from the prior state. -/
def GridDataProvider.setSort (dp : GridDataProvider)
    (sortColumn : String) (sortType : Option String) : GridDataProvider :=
  { dp with sortColumn := some sortColumn, sortType := sortType.getD dp.sortType }

/-- The grid options consumed by grid.ts (only the fields the embedded
methods read): `url` decides local vs remote source, `paging` guards the
window computation, `pageButtonCount` is the window size, `columns` the
explicit column configuration. -/
structure GridOptions where
  url : Option String
  paging : Bool
  pageButtonCount : Int
  columns : List GridColumn

/-- The mutable state of the `Grid` component class. -/
structure Grid where
  options : GridOptions
  columns : List GridColumn
  dataProvider : GridDataProvider
  data : List Row
  pageIndex : Int
  pages : List Int

/-- Embedding of `Grid.getData`: returns the stored page data. -/
def Grid.getData (g : Grid) : List Row :=
  g.data

/-- Embedding of `Grid.getSelectedItems`: the for-loop pushing each row
whose `selected` property is truthy onto an initially empty list.  A pure
read: it produces a new list and leaves the grid state untouched. -/
def Grid.getSelectedItems (g : Grid) : List Row :=
  g.data.foldl (fun acc row => if truthy row.selected then acc ++ [row] else acc) []

/-- Embedding of `Grid.getTotalPages` reading the provider state. -/
def Grid.getTotalPages (g : Grid) : Nat :=
  computeTotalPages g.dataProvider.totalCount g.dataProvider.pageSize

/-- Embedding of `Grid.setPageIndex`: stores the given index verbatim. -/
def Grid.setPageIndex (g : Grid) (pageIndex : Int) : Grid :=
  { g with pageIndex := pageIndex }

/-- Embedding of `Grid.setPageSize`: stores the size and resets the page
index to 1. -/
def Grid.setPageSize (g : Grid) (pageSize : Nat) : Grid :=
  { g with
    dataProvider := { g.dataProvider with pageSize := PageSize.size pageSize },
    pageIndex := 1 }

/-- Embedding of `Grid.setFilter`: delegates to the provider and resets
the page index to 1. -/
def Grid.setFilter (g : Grid) (columnName value : String) : Grid :=
  { g with
    dataProvider := g.dataProvider.setFilter columnName value,
    pageIndex := 1 }

/-- Embedding of `Grid.setSort`: delegates to the provider; the page
index is not touched. -/
def Grid.setSort (g : Grid) (sortColumn : String) (sortType : Option String) : Grid :=
  { g with dataProvider := g.dataProvider.setSort sortColumn sortType }

/-- Embedding of `Grid.getSortType`: if the candidate column name differs
from the provider's current sort column (including an undefined sort
column) the current sort type is returned unchanged, otherwise the type
is toggled between asc and desc. -/
def Grid.getSortType (g : Grid) (column : GridColumn) : String :=
  if some column.name ≠ g.dataProvider.sortColumn then
    g.dataProvider.sortType
  else if g.dataProvider.sortType = GridSort.TYPE_ASC then
    GridSort.TYPE_DESC
  else
    GridSort.TYPE_ASC

/-- Embedding of `Grid.getNestedKey`.  The source reads the first key of
the object, and when that key's value is again an object it evaluates
`firstKey.concat('.', this.getNestedKey(firstKeyValue))` but DISCARDS the
result (JavaScript `String.concat` is pure and the statement's value is
unused), so the method always returns just the first key.  `_.keys({})[0]`
is `undefined`; string coercion of `undefined` is the string below. -/
def getNestedKey : List (String × Value) → String
  | [] => "undefined"
  | (k, _) :: _ => k

/-- Embedding of `Grid.getColumnName`: when the value under `key` is an
object, append a dot and the nested key; otherwise the key itself. -/
def getColumnName (key : String) (row : List (String × Value)) : String :=
  match row.lookup key with
  | some (Value.obj fields) => key ++ "." ++ getNestedKey fields
  | _ => key

/-- Embedding of `Grid.setColumnsFromData`: one column per key of the
first row, with `getColumnName` as name and the key as heading. -/
def setColumnsFromData (data : List Row) : List GridColumn :=
  match data with
  | [] => []
  | firstRow :: _ =>
    firstRow.fields.map (fun kv =>
      { name := getColumnName kv.1 firstRow.fields, heading := kv.1 })

/-- Embedding of `Grid.initColumns`: push one column per configured
column option; when none are configured the list stays empty. -/
def initColumns (options : GridOptions) : List GridColumn :=
  if !options.columns.isEmpty then options.columns else []

/-- Modelled from the spec: the documented nested-key resolution
(the doc example of `getNestedKey` in grid.ts and spec section 4.4)
recursively descends via the first key of each nested object until the
first scalar, building the full dotted path; `none` on a scalar. -/
def specNestedPath : Value → Option String
  | Value.scalar _ => none
  | Value.obj [] => none
  | Value.obj ((k, v) :: _) =>
    match specNestedPath v with
    | none => some k
    | some rest => some (k ++ "." ++ rest)

/-- Modelled from the spec: the column name that the documented
nested-key resolution would produce for a key of the first row. -/
def specColumnName (key : String) (row : List (String × Value)) : String :=
  match row.lookup key with
  | some (Value.obj fields) =>
    match specNestedPath (Value.obj fields) with
    | some p => key ++ "." ++ p
    | none => key
  | _ => key

/-- Embedding of `Grid.refresh`: store the provider's data, infer columns
only when the stored data is non-empty and the column list is empty, and
recompute the page-button window when paging is enabled. -/
def Grid.refresh (g : Grid) : Grid :=
  let g1 : Grid := { g with data := g.dataProvider.records }
  let g2 : Grid :=
    if !g1.data.isEmpty && g1.columns.isEmpty then
      { g1 with columns := g1.columns ++ setColumnsFromData g1.data }
    else g1
  if g2.options.paging then
    { g2 with
      pages := paginate g2.options.pageButtonCount
        (Int.ofNat g2.getTotalPages) g2.pageIndex }
  else g2

/-- The result of the single subscription to `dataProvider.fetch()`: the
success branch carries the fetched page records and total count (which
the provider stores, per spec section 4.1, grid-data-provider.ts not
being in src), the error branch the error value passed to the error
callback. -/
inductive FetchOutcome where
  | success (records : List Row) (totalCount : Nat)
  | failure (err : String)

/-- Embedding of `Grid.render`: copy the page index into the provider;
with no `url` configured refresh directly (no fetch), otherwise issue
exactly one fetch and either refresh on success or log the error.  The
returned triple is the new grid state, the console log output, and the
number of fetch calls issued. -/
def Grid.render (g : Grid) (outcome : FetchOutcome) : Grid × List String × Nat :=
  let g1 : Grid := { g with dataProvider := { g.dataProvider with page := g.pageIndex } }
  match g1.options.url with
  | none => (g1.refresh, [], 0)
  | some _ =>
    match outcome with
    | FetchOutcome.success recs total =>
        (({ g1 with
            dataProvider :=
              { g1.dataProvider with records := recs, totalCount := total } }).refresh,
         [], 1)
    | FetchOutcome.failure err => (g1, [err], 1)

/-- The nested record of the `getNestedKey` doc example in grid.ts:
`{country: {name: {officialName: ..., name: ...}, id: 6}}`. -/
def exampleRow : List (String × Value) :=
  [("country", Value.obj
    [("name", Value.obj
      [("officialName", Value.scalar "PRC"),
       ("name", Value.scalar "China")]),
     ("id", Value.scalar "6")])]

/-- A sample filled provider: 25 records total, page size 10. -/
def sampleProvider : GridDataProvider :=
  { pageSize := PageSize.size 10
    page := 1
    sortColumn := some "name"
    sortType := "asc"
    filters := []
    records := [{ fields := [("name", Value.scalar "a")], selected := some true },
                { fields := [("name", Value.scalar "b")] }]
    totalCount := 25 }

/-- A sample grid over a remote source with one configured column. -/
def sampleGrid : Grid :=
  { options :=
      { url := some "http://api"
        paging := true
        pageButtonCount := 5
        columns := [{ name := "name", heading := "Name" }] }
    columns := [{ name := "name", heading := "Name" }]
    dataProvider := sampleProvider
    data := [{ fields := [("name", Value.scalar "a")], selected := some true },
             { fields := [("name", Value.scalar "b")] }]
    pageIndex := 2
    pages := [] }

theorem intRange_length (s e : Int) : (intRange s e).length = (e + 1 - s).toNat := by
  unfold intRange
  rw [List.length_map, List.length_range]

theorem mem_intRange {s e x : Int} : x ∈ intRange s e ↔ s ≤ x ∧ x ≤ e := by
  unfold intRange
  simp only [List.mem_map, List.mem_range]
  constructor
  · rintro ⟨i, hi, rfl⟩
    omega
  · rintro ⟨h1, h2⟩
    exact ⟨(x - s).toNat, by omega, by omega⟩

theorem paginate_mem_bounds (pbc tp cur x : Int) (hx : x ∈ paginate pbc tp cur) :
    1 ≤ x ∧ x ≤ tp := by
  simp only [paginate] at hx
  split_ifs at hx <;> rw [mem_intRange] at hx <;> omega

theorem paginate_eq_intRange (pbc tp cur : Int) (h1 : 1 ≤ cur) (h2 : cur ≤ tp)
    (h3 : 1 ≤ pbc) :
    ∃ s e : Int, paginate pbc tp cur = intRange s e ∧
      e + 1 - s = min pbc tp ∧ 1 ≤ s ∧ e ≤ tp ∧ s ≤ cur ∧ cur ≤ e := by
  have hw : 1 ≤ min pbc tp := by omega
  simp only [paginate]
  split_ifs with ha hb
  · exact ⟨1, min pbc tp, rfl, by omega, by omega, by omega, by omega, by omega⟩
  · exact ⟨tp - min pbc tp + 1, tp, rfl, by omega, by omega, by omega, by omega, by omega⟩
  · exact ⟨_, _, rfl, by omega, by omega, by omega, by omega, by omega⟩

/-- Claim C1, counterexample: with totalCount 0 and pageSize 10 the code
returns 0 total pages, not at least 1 as the claim states. -/
theorem c1_totalPages_cex :
    computeTotalPages 0 (PageSize.size 10) = 0 ∧
    ¬ 1 ≤ computeTotalPages 0 (PageSize.size 10) := by
  decide

/-- Claim C1 (amended): for every pageSize > 0, getTotalPages returns
exactly ceil(totalCount / pageSize) — at least 1 and the ceiling whenever
totalCount > 0 — but it returns 0 (not 1) when totalCount = 0; with the
page size disabled it returns 1. -/
theorem c1_totalPages (tc ps : Nat) (h : 0 < ps) :
    computeTotalPages tc PageSize.disabled = 1 ∧
    computeTotalPages 0 (PageSize.size ps) = 0 ∧
    (0 < tc →
      1 ≤ computeTotalPages tc (PageSize.size ps) ∧
      ps * (computeTotalPages tc (PageSize.size ps) - 1) < tc ∧
      tc ≤ ps * computeTotalPages tc (PageSize.size ps)) := by
  refine ⟨rfl, ?_, ?_⟩
  · show (0 + ps - 1) / ps = 0
    exact Nat.div_eq_of_lt (by omega)
  · intro htc
    simp only [computeTotalPages]
    have hdm := Nat.div_add_mod (tc + ps - 1) ps
    have hmod := Nat.mod_lt (tc + ps - 1) h
    have hq1 : 1 ≤ (tc + ps - 1) / ps := by
      rcases Nat.eq_zero_or_pos ((tc + ps - 1) / ps) with hz | hp
      · rw [hz, Nat.mul_zero, Nat.zero_add] at hdm
        omega
      · exact hp
    have hmul : ps * ((tc + ps - 1) / ps - 1) = ps * ((tc + ps - 1) / ps) - ps := by
      cases hq : (tc + ps - 1) / ps with
      | zero => omega
      | succ k =>
        simp [Nat.mul_succ]
    refine ⟨hq1, ?_, ?_⟩ <;> omega

/-- Claim C1, witness: 25 records with page size 10 give at least one page. -/
theorem c1_totalPages_witness : 1 ≤ computeTotalPages 25 (PageSize.size 10) :=
  ((c1_totalPages 25 10 (by decide)).2.2 (by decide)).1

/-- Claim C3, counterexample: with windowSize 0 (≤ totalPages 1) and
currentPage 1 the window is empty, so it does not contain the current
page as the claim states. -/
theorem c3_window_cex :
    paginate 0 1 1 = [] ∧ ¬ (1 : Int) ∈ paginate 0 1 1 := by
  decide

/-- Claim C3 (amended): for currentPage in [1, totalPages] and
1 ≤ windowSize ≤ totalPages, paginate yields exactly windowSize
consecutive integers (a contiguous `intRange`), all within
[1, totalPages], containing currentPage; when totalPages < windowSize it
yields the shorter sequence of totalPages consecutive integers within the
natural bounds, still containing currentPage. -/
theorem c3_window (pbc tp cur : Int) (h1 : 1 ≤ cur) (h2 : cur ≤ tp) (h3 : 1 ≤ pbc) :
    (pbc ≤ tp →
      (paginate pbc tp cur).length = pbc.toNat ∧
      (∀ x ∈ paginate pbc tp cur, 1 ≤ x ∧ x ≤ tp) ∧
      cur ∈ paginate pbc tp cur ∧
      ∃ s : Int, paginate pbc tp cur = intRange s (s + pbc - 1)) ∧
    (tp < pbc →
      (paginate pbc tp cur).length = tp.toNat ∧
      cur ∈ paginate pbc tp cur ∧
      ∀ x ∈ paginate pbc tp cur, 1 ≤ x ∧ x ≤ tp) := by
  obtain ⟨s, e, heq, hlen, hs, he, hsc, hce⟩ := paginate_eq_intRange pbc tp cur h1 h2 h3
  constructor
  · intro hple
    have hmin : min pbc tp = pbc := min_eq_left hple
    refine ⟨?_, ?_, ?_, ⟨s, ?_⟩⟩
    · rw [heq, intRange_length]; omega
    · intro x hx; exact paginate_mem_bounds pbc tp cur x hx
    · rw [heq, mem_intRange]; omega
    · rw [heq]; congr 1; omega
  · intro hlt
    have hmin : min pbc tp = tp := min_eq_right (le_of_lt hlt)
    refine ⟨?_, ?_, ?_⟩
    · rw [heq, intRange_length]; omega
    · rw [heq, mem_intRange]; omega
    · intro x hx; exact paginate_mem_bounds pbc tp cur x hx

/-- Claim C3, witness: window size 5 over 10 pages centred on page 7. -/
theorem c3_window_witness :
    (paginate 5 10 7).length = (5 : Int).toNat ∧ (7 : Int) ∈ paginate 5 10 7 := by
  have h := (c3_window 5 10 7 (by decide) (by decide) (by decide)).1 (by decide)
  exact ⟨h.1, h.2.2.1⟩

/-- Claim C6: setPageIndex stores any integer verbatim, and the window
computed by paginate from that stored index is still entirely within
[1, totalPages] whenever totalPages ≥ 1. -/
theorem c6_pageIndex_tolerated (g : Grid) (p pbc tp : Int) (_htp : 1 ≤ tp) :
    (g.setPageIndex p).pageIndex = p ∧
    ∀ x ∈ paginate pbc tp (g.setPageIndex p).pageIndex, 1 ≤ x ∧ x ≤ tp :=
  ⟨rfl, fun x hx => paginate_mem_bounds pbc tp _ x hx⟩

/-- Claim C6, witness: storing the out-of-range index 99 with 3 total
pages keeps every window entry within [1, 3]. -/
theorem c6_pageIndex_tolerated_witness :
    (sampleGrid.setPageIndex 99).pageIndex = 99 ∧
    ∀ x ∈ paginate 5 3 (sampleGrid.setPageIndex 99).pageIndex, 1 ≤ x ∧ x ≤ 3 :=
  c6_pageIndex_tolerated sampleGrid 99 5 3 (by decide)

/-- Claim C7: 25 records at page size 10 give 3 total pages, and the
window for current page 2, 3 total pages, window size 5 is [1, 2, 3]. -/
theorem c7_scenario :
    computeTotalPages 25 (PageSize.size 10) = 3 ∧
    sampleGrid.getTotalPages = 3 ∧
    paginate 5 (Int.ofNat (computeTotalPages 25 (PageSize.size 10))) 2 = [1, 2, 3] := by
  decide

/-- Claim C2: the code contradicts its own doc example.  On the record
`{country: {name: {officialName: ..., name: ...}, id: 6}}` the inferred
column name is only `country.name`, because `getNestedKey` discards the
result of its recursive `concat`; the documented resolution (and the
claim) give the full dotted path `country.name.officialName`.  The
heading is still the top-level key and only one column is produced. -/
theorem c2_nested_column_bug :
    getColumnName "country" exampleRow = "country.name" ∧
    specColumnName "country" exampleRow = "country.name.officialName" ∧
    setColumnsFromData [{ fields := exampleRow }] =
      [{ name := "country.name", heading := "country" }] ∧
    getColumnName "country" exampleRow ≠ specColumnName "country" exampleRow := by
  have h1 : getColumnName "country" exampleRow = "country.name" := rfl
  have h2 : specColumnName "country" exampleRow = "country.name.officialName" := by
    simp [specColumnName, exampleRow, specNestedPath]
  refine ⟨h1, h2, rfl, ?_⟩
  rw [h1, h2]
  decide

/-- Claim C4: getSortType leaves the current sort type unchanged when the
candidate column differs from the current sort column, and toggles
asc/desc when they coincide. -/
theorem c4_sortType_toggle (g : Grid) (c : GridColumn) :
    (g.dataProvider.sortColumn ≠ some c.name →
      g.getSortType c = g.dataProvider.sortType) ∧
    (g.dataProvider.sortColumn = some c.name →
      (g.dataProvider.sortType = GridSort.TYPE_ASC →
        g.getSortType c = GridSort.TYPE_DESC) ∧
      (g.dataProvider.sortType = GridSort.TYPE_DESC →
        g.getSortType c = GridSort.TYPE_ASC)) := by
  unfold Grid.getSortType
  constructor
  · intro h
    rw [if_pos (fun he => h he.symm)]
  · intro h
    constructor
    · intro ha
      rw [h, ha]
      simp [GridSort.TYPE_ASC, GridSort.TYPE_DESC]
    · intro hd
      rw [h, hd]
      simp [GridSort.TYPE_ASC, GridSort.TYPE_DESC]

/-- Claim C4, witness: the sample grid is sorted ascending by `name`;
clicking `name` again yields desc, and a different current column leaves
the type unchanged. -/
theorem c4_sortType_toggle_witness :
    sampleGrid.getSortType { name := "name", heading := "Name" } = GridSort.TYPE_DESC :=
  ((c4_sortType_toggle sampleGrid { name := "name", heading := "Name" }).2 rfl).1 rfl

/-- Claim C5: for a remote source, a failed fetch leaves the stored page
data unchanged (getData still returns the previous records), logs exactly
the error, and issues exactly one fetch (no retry). -/
theorem c5_fetch_failure (g : Grid) (u err : String) (h : g.options.url = some u) :
    (g.render (FetchOutcome.failure err)).1.getData = g.getData ∧
    (g.render (FetchOutcome.failure err)).2.1 = [err] ∧
    (g.render (FetchOutcome.failure err)).2.2 = 1 := by
  unfold Grid.render
  simp [h, Grid.getData]

/-- Claim C5, witness: a failed fetch on the sample remote grid logs the
error and leaves the data as it was. -/
theorem c5_fetch_failure_witness :
    (sampleGrid.render (FetchOutcome.failure "boom")).1.getData = sampleGrid.getData ∧
    (sampleGrid.render (FetchOutcome.failure "boom")).2.1 = ["boom"] := by
  have h := c5_fetch_failure sampleGrid "http://api" "boom" rfl
  exact ⟨h.1, h.2.1⟩

theorem refresh_preserves_columns (g : Grid) (h : g.columns.isEmpty = false) :
    g.refresh.columns = g.columns := by
  unfold Grid.refresh
  simp only [h, Bool.and_false, Bool.false_eq_true, if_false]
  split <;> rfl

/-- Claim C8: once the column list is non-empty, neither refresh nor
render (with any fetch outcome) modifies it. -/
theorem c8_columns_fixed (g : Grid) (h : g.columns ≠ []) :
    g.refresh.columns = g.columns ∧
    ∀ o : FetchOutcome, (g.render o).1.columns = g.columns := by
  have hne : g.columns.isEmpty = false := by
    cases hc : g.columns with
    | nil => exact absurd hc h
    | cons a t => rfl
  refine ⟨refresh_preserves_columns g hne, ?_⟩
  intro o
  unfold Grid.render
  rcases hu : g.options.url with _ | u
  · simp only [hu]
    exact refresh_preserves_columns _ hne
  · rcases o with ⟨recs, total⟩ | err
    · simp only [hu]
      exact refresh_preserves_columns _ hne
    · simp only [hu]

/-- Claim C8, witness: refreshing the sample grid (which has a configured
column) leaves its column list unchanged. -/
theorem c8_columns_fixed_witness :
    sampleGrid.refresh.columns = sampleGrid.columns :=
  (c8_columns_fixed sampleGrid (by decide)).1

/-- Claim C9: setFilter and setPageSize reset the stored page index to 1
for every prior state, while setSort leaves both the page index and the
stored page data (hence getData) unchanged. -/
theorem c9_setters_reset_page (g : Grid) (c v sc : String) (ps : Nat)
    (st : Option String) :
    (g.setFilter c v).pageIndex = 1 ∧
    (g.setPageSize ps).pageIndex = 1 ∧
    (g.setSort sc st).pageIndex = g.pageIndex ∧
    (g.setSort sc st).getData = g.getData :=
  ⟨rfl, rfl, rfl, rfl⟩

theorem foldl_select (l acc : List Row) :
    l.foldl (fun acc row => if truthy row.selected then acc ++ [row] else acc) acc =
      acc ++ l.filter (fun r => truthy r.selected) := by
  induction l generalizing acc with
  | nil => simp
  | cons r t ih =>
    simp only [List.foldl_cons, List.filter_cons]
    cases hb : truthy r.selected
    · simp [hb, ih]
    · simp [hb, ih]

/-- Claim C10: getSelectedItems returns exactly the rows of the current
page data whose selected flag is truthy, in the same relative order as
getData (it equals the order-preserving filter and is a sublist), and a
row with no selected flag is never included; being a pure function of the
grid state it modifies nothing. -/
theorem c10_selected_items (g : Grid) :
    g.getSelectedItems = g.getData.filter (fun r => truthy r.selected) ∧
    g.getSelectedItems.Sublist g.getData ∧
    (∀ r ∈ g.getSelectedItems, truthy r.selected = true) ∧
    (∀ r ∈ g.getSelectedItems, r.selected ≠ none) := by
  have hfe : g.getSelectedItems = g.getData.filter (fun r => truthy r.selected) := by
    unfold Grid.getSelectedItems Grid.getData
    simpa using foldl_select g.data []
  refine ⟨hfe, ?_, ?_, ?_⟩
  · rw [hfe]
    exact List.filter_sublist _
  · intro r hr
    rw [hfe] at hr
    exact (List.mem_filter.mp hr).2
  · intro r hr hnone
    have ht := (List.mem_filter.mp (hfe ▸ hr)).2
    rw [hnone] at ht
    simp [truthy] at ht

/-- Claim C10, witness: in the sample grid only the first row is
selected, and its flag is set. -/
theorem c10_selected_items_witness :
    ({ fields := [("name", Value.scalar "a")], selected := some true } : Row).selected ≠
      none := by
  refine (c10_selected_items sampleGrid).2.2.2 _ ?_
  have h : sampleGrid.getSelectedItems =
      [{ fields := [("name", Value.scalar "a")], selected := some true }] := rfl
  rw [h]
  exact List.mem_singleton_self _
